import Mathlib

/-!
Verification development for the chatbotwhatsapp repository.

The JavaScript sources are shallowly embedded:
  * `src/services/studentService.js`  -> `buscarEstudiante`, `calcularDeuda`
  * `src/controllers/botController.js` -> `procesarMensaje`, `handleUpsert`
  * `src/unnamed/part_001` (Dropbox cache) -> `downloadWithRetry`

JavaScript numbers are modelled as rationals (`ℚ`); spreadsheet cell
values as the inductive `CellValue`; wall-clock instants as `Instante`
(compared through the epoch-style linear key `claveInstante`, mirroring
the millisecond comparison of JavaScript `Date` objects).  External
collaborators that are not part of the sources (the state store, the
guardian-link store, the PIN validator, the admin list) are modelled as
oracle fields of `Entorno`, following the spec's data model.  String
primitives (trim, startsWith, replace) are implemented structurally on
character lists so that every definition evaluates by kernel reduction.
-/

section ChatbotWhatsapp

attribute [local semireducible] Rat.add Rat.sub Rat.mul Rat.inv

/-- Floor of a rational number, via flooring integer division. -/
def pisoQ (q : ℚ) : ℤ :=
  q.num.fdiv q.den

/-- Characters treated as whitespace by the embedding (ASCII subset of
the JavaScript whitespace class). -/
def jsEsEspacio (c : Char) : Bool :=
  c == ' ' || c == '\t' || c == '\n' || c == '\r' || c == Char.ofNat 11 || c == Char.ofNat 12

/-- Decimal digit test, the model of the regex class [0-9]. -/
def esDigito (c : Char) : Bool :=
  '0' ≤ c && c ≤ '9'

/-- Value of a list of decimal digit characters. -/
def digitosANat (l : List Char) : ℕ :=
  l.foldl (fun a c => a * 10 + (c.toNat - 48)) 0

/-- Trimming of leading and trailing whitespace (model of
String.prototype.trim). -/
def recorta (s : String) : String :=
  String.mk (((s.data.dropWhile jsEsEspacio).reverse.dropWhile jsEsEspacio).reverse)

/-- Prefix test on strings (model of String.prototype.startsWith). -/
def empiezaCon (pre s : String) : Bool :=
  pre.data.isPrefixOf s.data

/-- Whether a string contains a character (model of includes for a
one-character needle). -/
def contieneChar (c : Char) (s : String) : Bool :=
  s.data.any fun d => d == c

/-- Drop of the first `n` characters (model of substring(n)). -/
def quitaPrefijo (n : ℕ) (s : String) : String :=
  String.mk (s.data.drop n)

/-- Removal of the first occurrence of a non-empty literal pattern
inside a character list. -/
def quitarPrimeraAux (pat : List Char) : List Char → List Char
  | [] => []
  | c :: resto =>
      if pat.isPrefixOf (c :: resto) then (c :: resto).drop pat.length
      else c :: quitarPrimeraAux pat resto

/-- Model of String.prototype.replace with a string pattern and empty
replacement: the first occurrence of the pattern is removed. -/
def quitarPrimera (pat s : String) : String :=
  if pat.data.isEmpty then s else String.mk (quitarPrimeraAux pat.data s.data)

/-- Lower-casing of a character, covering ASCII letters and the Spanish
accented letters that occur in the bot's vocabulary (model of
String.prototype.toLowerCase on that alphabet). -/
def jsMinusculaChar (c : Char) : Char :=
  if 'A' ≤ c && c ≤ 'Z' then Char.ofNat (c.toNat + 32)
  else if c == 'Á' then 'á'
  else if c == 'É' then 'é'
  else if c == 'Í' then 'í'
  else if c == 'Ó' then 'ó'
  else if c == 'Ú' then 'ú'
  else if c == 'Ü' then 'ü'
  else if c == 'Ñ' then 'ñ'
  else c

/-- Lower-casing of a string (model of toLowerCase). -/
def jsMinuscula (s : String) : String :=
  String.mk (s.data.map jsMinusculaChar)

/-- Upper-casing of a character (ASCII letters, enough for the month
names, model of toUpperCase). -/
def jsMayusculaChar (c : Char) : Char :=
  if 'a' ≤ c && c ≤ 'z' then Char.ofNat (c.toNat - 32) else c

/-- Upper-casing of a string (model of toUpperCase on ASCII). -/
def jsMayuscula (s : String) : String :=
  String.mk (s.data.map jsMayusculaChar)

/-- Power of a rational by an integer exponent, used for the decimal
exponent of parseFloat. -/
def potenciaZ (b : ℚ) (e : ℤ) : ℚ :=
  if e < 0 then (b ^ e.natAbs)⁻¹ else b ^ e.natAbs

/-- Model of JavaScript parseFloat restricted to finite decimal
literals: leading whitespace, optional sign, digits with an optional
fractional part, optional decimal exponent.  Returns `Option.none` where
parseFloat returns NaN.  (The special literal Infinity cannot arise from
the cleaned currency strings this model is applied to.) -/
def parseFloatQ (s : String) : Option ℚ :=
  let l := s.data.dropWhile jsEsEspacio
  let conSigno : ℚ × List Char :=
    match l with
    | c :: resto => if c == '-' then (-1, resto) else if c == '+' then (1, resto) else (1, l)
    | [] => (1, [])
  let sgn := conSigno.1
  let l1 := conSigno.2
  let d1 := l1.takeWhile esDigito
  let l2 := l1.drop d1.length
  let parteFrac : List Char × List Char :=
    match l2 with
    | c :: resto => if c == '.' then (resto.takeWhile esDigito, resto.drop (resto.takeWhile esDigito).length) else ([], l2)
    | [] => ([], [])
  let d2 := parteFrac.1
  let l3 := parteFrac.2
  if d1.isEmpty && d2.isEmpty then Option.none
  else
    let mant : ℚ := sgn * ((digitosANat d1 : ℚ) + (digitosANat d2 : ℚ) / 10 ^ d2.length)
    let expo : ℤ :=
      match l3 with
      | c :: resto =>
        if c == 'e' || c == 'E' then
          let conSignoE : ℤ × List Char :=
            match resto with
            | c2 :: resto2 => if c2 == '-' then (-1, resto2) else if c2 == '+' then (1, resto2) else (1, resto)
            | [] => (1, [])
          let ed := conSignoE.2.takeWhile esDigito
          if ed.isEmpty then 0 else conSignoE.1 * (digitosANat ed : ℤ)
        else 0
      | [] => 0
    some (mant * potenciaZ 10 expo)

/-- parseFloat with the `|| 0` fallback used by the source. -/
def parseFloatO0 (s : String) : ℚ :=
  (parseFloatQ s).getD 0

/-- Model of parseInt(s, 10): leading whitespace, optional sign, then
decimal digits; `Option.none` where parseInt returns NaN. -/
def parseIntJs (s : String) : Option ℤ :=
  let l := s.data.dropWhile jsEsEspacio
  let conSigno : ℤ × List Char :=
    match l with
    | c :: resto => if c == '-' then (-1, resto) else if c == '+' then (1, resto) else (1, l)
    | [] => (1, [])
  let ds := conSigno.2.takeWhile esDigito
  if ds.isEmpty then Option.none else some (conSigno.1 * (digitosANat ds : ℤ))

/-- Left-pad a string with zero characters, used when printing decimal
fractions. -/
def rellenaCeros (n : ℕ) (s : String) : String :=
  if s.data.length < n then String.mk (List.replicate (n - s.data.length) '0') ++ s else s

/-- Model of Number.prototype.toFixed(2): the integer nearest to
100 · q (ties toward the larger integer, as in the ECMAScript
specification) rendered with exactly two decimal places. -/
def toFixed2 (q : ℚ) : String :=
  let n : ℤ := pisoQ (q * 100 + 1 / 2)
  let signo := if n < 0 then "-" else ""
  let m := n.natAbs
  signo ++ toString (m / 100) ++ "." ++ rellenaCeros 2 (toString (m % 100))

/-- Printing of a non-negative rational as a decimal numeral: the
shortest exact decimal expansion when one exists with at most twenty
fractional digits, else a twenty-digit truncation.  This models
Number.prototype.toString on the terminating decimals the spreadsheet
produces; it is only consulted when a numeric cell is stringified. -/
def numACadenaNoNeg (q : ℚ) : String :=
  let k := (((List.range 21).filter fun k => ((q * 10 ^ k : ℚ).den = 1)).head?).getD 20
  let m := (pisoQ (q * 10 ^ k)).natAbs
  if k = 0 then toString m
  else toString (m / 10 ^ k) ++ "." ++ rellenaCeros k (toString (m % 10 ^ k))

/-- Printing of a rational as a decimal numeral (sign plus
`numACadenaNoNeg`). -/
def numACadena (q : ℚ) : String :=
  if q < 0 then "-" ++ numACadenaNoNeg (-q) else numACadenaNoNeg q

/-- A spreadsheet cell value as seen through exceljs: a native number, a
string, null/undefined, or a wrapper object carrying an optional text
and an optional computed result (formula cells and rich text). -/
inductive CellValue where
  | num (q : ℚ)
  | str (s : String)
  | nulo
  | obj (texto : Option String) (resultado : Option ℚ)
deriving DecidableEq

/-- Model of value?.toString(): `Option.none` for null/undefined (the
optional chaining yields undefined), the string itself, the decimal
numeral of a number, and the default object stringification for wrapper
objects. -/
def cellToString : CellValue → Option String
  | CellValue.nulo => Option.none
  | CellValue.str s => some s
  | CellValue.num q => some (numACadena q)
  | CellValue.obj _ _ => some "[object Object]"

/-- Model of template-literal interpolation String(v). -/
def jsCadenaDe : CellValue → String
  | CellValue.nulo => "null"
  | CellValue.str s => s
  | CellValue.num q => numACadena q
  | CellValue.obj _ _ => "[object Object]"

/-- Model of the pending test from calcularDeuda:
!valor || valor.toString().trim() === ''.  Null/undefined and the number
0 are falsy; a string is blank when empty or whitespace-only; a number
never stringifies to whitespace; wrapper objects are truthy and
stringify to a non-blank text. -/
def esBlank : CellValue → Bool
  | CellValue.nulo => true
  | CellValue.num q => q == 0
  | CellValue.str s => recorta s == ""
  | CellValue.obj _ _ => false

/-- Remove every character other than a digit or a dot, the model of
replace(/[^0-9.]/g, ''). -/
def limpiarNoNumerico (s : String) : String :=
  String.mk (s.data.filter fun c => esDigito c || c == '.')

/-- Remove all whitespace, the model of replace(/\s/g, ''). -/
def quitarEspacios (s : String) : String :=
  String.mk (s.data.filter fun c => !jsEsEspacio c)

/-- The currency clean-up of the comma branch of buscarEstudiante:
drop the first "L.", then the first "L", then all whitespace, then the
first comma. -/
def limpiarConComa (s : String) : String :=
  quitarPrimera "," (quitarEspacios (quitarPrimera "L" (quitarPrimera "L." s)))

/-- Truthiness of the optional text field of a wrapper object. -/
def textoVeraz : Option String → Bool
  | some t => t != ""
  | Option.none => false

/-- The amount-due normalization of buscarEstudiante: a native number is
kept; a string is stripped to digits and dots and parsed (0 on failure);
a wrapper object contributes its text (parsed the same way) or its
computed result; afterwards a non-empty string containing a comma is
re-parsed through the currency clean-up. -/
def totalPagarDe (v : CellValue) : ℚ :=
  let base : ℚ :=
    match v with
    | CellValue.num q => q
    | CellValue.str s => parseFloatO0 (limpiarNoNumerico s)
    | CellValue.obj texto resultado =>
        if textoVeraz texto then parseFloatO0 (limpiarNoNumerico (texto.getD ""))
        else
          match resultado with
          | some r => if r == 0 then 0 else r
          | Option.none => 0
    | CellValue.nulo => 0
  match v with
  | CellValue.str s => if s != "" && contieneChar ',' s then parseFloatO0 (limpiarConComa s) else base
  | _ => base

/-- One worksheet row, holding the cells the service reads, with the
twelve monthly cells listed in calendar order (the column letters
themselves live in the external configuration). -/
structure Fila where
  idC : CellValue
  nombreC : CellValue
  gradoC : CellValue
  planC : CellValue
  totalC : CellValue
  mesesC : List CellValue
deriving DecidableEq

/-- The Student record built by buscarEstudiante from a matching row. -/
structure Estudiante where
  nombre : CellValue
  grado : CellValue
  id : String
  planDePago : CellValue
  meses : List CellValue
  totalPagar : ℚ
  valorCeldaOriginal : CellValue
deriving DecidableEq

/-- Construction of the Student object from a matching row. -/
def estudianteDeFila (id : String) (r : Fila) : Estudiante :=
  { nombre := r.nombreC
    grado := r.gradoC
    id := id
    planDePago := r.planC
    meses := r.mesesC
    totalPagar := totalPagarDe r.totalC
    valorCeldaOriginal := r.totalC }

/-- Whether a row's identity cell stringifies equal to the requested
id (the comparison of buscarEstudiante). -/
def filaCoincide (id : String) (r : Fila) : Bool :=
  cellToString r.idC == some id

/-- The eachRow traversal of buscarEstudiante: rows are numbered from
`n`, rows numbered below 3 are skipped, and every later matching row
overwrites the accumulator. -/
def buscarAux (id : String) (acc : Option Estudiante) (n : ℕ) : List Fila → Option Estudiante
  | [] => acc
  | r :: resto =>
      buscarAux id
        (if n < 3 then acc
         else if filaCoincide id r then some (estudianteDeFila id r) else acc)
        (n + 1) resto

/-- Model of buscarEstudiante on an already-fetched worksheet: scan the
rows (1-based numbering, header rows 1 and 2 skipped) and keep the
student built from the row whose identity cell stringifies to the id. -/
def buscarEstudiante (hoja : List Fila) (id : String) : Option Estudiante :=
  buscarAux id Option.none 1 hoja

/-- The rows a lookup can match, numbered from `n`: rows numbered at
least 3 whose identity cell stringifies to the id, in worksheet order.
This is the specification-side description of the scan. -/
def filasQueCoinciden (id : String) (n : ℕ) : List Fila → List Fila
  | [] => []
  | r :: resto =>
      if 3 ≤ n ∧ filaCoincide id r = true then r :: filasQueCoinciden id (n + 1) resto
      else filasQueCoinciden id (n + 1) resto

/-- A wall-clock instant: year, calendar month (1..12), day of month,
and milliseconds elapsed inside the day. -/
structure Instante where
  anio : ℤ
  mes : ℕ
  dia : ℕ
  msDia : ℕ
deriving DecidableEq

/-- Linear key of an instant.  For instants whose fields are in range
(month 1..12, day 1..31, milliseconds below 86400000) the key order
agrees with the epoch-millisecond order JavaScript Date comparison
uses. -/
def claveInstante (t : Instante) : ℤ :=
  ((t.anio * 13 + (t.mes : ℤ)) * 32 + (t.dia : ℤ)) * 86400000 + (t.msDia : ℤ)

/-- Strict order on instants through their keys (the model of comparing
two Date values with <). -/
def instanteLt (a b : Instante) : Prop :=
  claveInstante a < claveInstante b

instance (a b : Instante) : Decidable (instanteLt a b) :=
  inferInstanceAs (Decidable (claveInstante a < claveInstante b))

/-- Model of new Date(anio, mIdx, dia) at midnight for the month
indices 1..12 the debt calculator produces: the JavaScript Date
constructor interprets the month 0-based and normalizes index 12 into
January of the following year. -/
def jsDate (anio : ℤ) (mIdx : ℕ) (dia : ℕ) : Instante :=
  if mIdx = 12 then { anio := anio + 1, mes := 1, dia := dia, msDia := 0 }
  else { anio := anio, mes := mIdx + 1, dia := dia, msDia := 0 }

/-- The due date computed by calcularDeuda for pending month `mesNum`:
the year anchor steps back by one when the pending month is December and
the current month is January, and the Date constructor is applied to
month index `mesNum`, giving the 11th of the following month. -/
def fechaVencimiento (anioActual : ℤ) (mesActual mesNum : ℕ) : Instante :=
  let anioMes := if mesNum = 12 ∧ mesActual = 1 then anioActual - 1 else anioActual
  jsDate anioMes mesNum 11

/-- Specification-side due date: the 11th day of the calendar month
following the pending month, December wrapping into January of the next
year except that with a January evaluation the anchor year already
stepped back, leaving January 11 of the current year. -/
def vencimientoSpec (anioActual : ℤ) (mesActual mesNum : ℕ) : Instante :=
  if mesNum = 12 then
    if mesActual = 1 then { anio := anioActual, mes := 1, dia := 11, msDia := 0 }
    else { anio := anioActual + 1, mes := 1, dia := 11, msDia := 0 }
  else { anio := anioActual, mes := mesNum + 1, dia := 11, msDia := 0 }

/-- The twelve month keys of the payment columns, lower-cased, in
calendar order.  The configuration file holding the column map is not
part of the sources; the names and their order are those the controller
itself hardcodes (botController.js line 185). -/
def mesesNombres : List String :=
  ["enero", "febrero", "marzo", "abril", "mayo", "junio",
   "julio", "agosto", "septiembre", "octubre", "noviembre", "diciembre"]

/-- The month numbers 1..12 paired off the configuration order (the
num := index + 1 of calcularDeuda). -/
def mesesNums : List ℕ :=
  (List.range 12).map fun i => i + 1

/-- The payment cell of a student for a month number. -/
def mesDe (e : Estudiante) (n : ℕ) : CellValue :=
  e.meses.getD (n - 1) CellValue.nulo

/-- The display name of a month number. -/
def nombreMes (n : ℕ) : String :=
  mesesNombres.getD (n - 1) ""

/-- The first payable month of a student: month 2 when the payment plan
cell is the number 10 (strict equality, plan A), month 1 otherwise. -/
def primerMesPagable (e : Estudiante) : ℕ :=
  if e.planDePago = CellValue.num 10 then 2 else 1

/-- The pending months of calcularDeuda: the configured months filtered
to the window from the first payable month through the current month,
then filtered to those whose cell is blank. -/
def mesesPendientesCalc (e : Estudiante) (mesActual : ℕ) : List ℕ :=
  (mesesNums.filter fun n => decide (primerMesPagable e ≤ n) && decide (n ≤ mesActual)).filter
    fun n => esBlank (mesDe e n)

/-- The late-fee accumulation of calcularDeuda: for each pending month
whose due date lies strictly before now, add five percent of the monthly
amount. -/
def deudaMoraQ (e : Estudiante) (t : Instante) : ℚ :=
  (mesesPendientesCalc e t.mes).foldl
    (fun acc n =>
      if instanteLt (fechaVencimiento t.anio t.mes n) t then acc + e.totalPagar * (5 / 100)
      else acc)
    0

/-- The settlement summary returned by calcularDeuda. -/
structure Deuda where
  deudaMensualidad : String
  deudaMora : String
  totalDeuda : String
  mesesPendientes : List String
  cuotaMensual : String
  alDia : Bool
deriving DecidableEq

/-- Model of calcularDeuda evaluated at the instant `t` (the new Date()
of the source). -/
def calcularDeuda (e : Estudiante) (t : Instante) : Deuda :=
  let pendientes := mesesPendientesCalc e t.mes
  let cuotaMensual := e.totalPagar
  let mora := deudaMoraQ e t
  let mensualidad := cuotaMensual * (pendientes.length : ℚ)
  { deudaMensualidad := toFixed2 mensualidad
    deudaMora := toFixed2 mora
    totalDeuda := toFixed2 (mensualidad + mora)
    mesesPendientes := pendientes.map fun n => jsMayuscula (nombreMes n)
    cuotaMensual := toFixed2 cuotaMensual
    alDia := pendientes.length = 0 }

/-- The auxiliary payload stored next to a conversation state.
Modelled from the spec: the state store (stateService, not among the
sources) keeps, per user, the state name and exactly the payload the
controller passed on the last establecerEstado call — nothing (the
plain calls), a candidate id list (SELECCION_ALUMNO, ELIMINAR_ALUMNO)
or a carried student id (REGISTRO_PIN).  Reading a field the stored
payload does not have mirrors the JavaScript undefined-access
behaviour. -/
inductive Datos where
  | ninguno
  | conAlumnos (l : List String)
  | conId (id : String)
deriving DecidableEq

/-- A stored conversation state: the state name string and the
auxiliary payload. -/
structure EstadoConv where
  estado : String
  datos : Datos
deriving DecidableEq

/-- The observable side effects of handling one inbound message.
Outbound sends carry their text; the main-menu render (whose text
depends only on external configuration and the guardian-link store) and
the payment-status render are abstracted as tagged actions. -/
inductive Accion where
  | envia (texto : String)
  | menu
  | menuProgramado
  | estadoPagos (id : String)
  | broadcastMsg
  | broadcastTexto (texto : String)
  | infoEscuela
  | contactoAdmin
  | registraEncargado (id : String)
  | llamaEliminar (id : String)
  | logError
deriving DecidableEq

/-- The collaborators of procesarMensaje for one sender.  Modelled from
the spec: adminService, encargadoService, pinService and stateService
are not among the sources, so the admin flag, the guardian-link list,
the link remover, the PIN validator and the stored greeting date are
oracles; `hoja` is the outcome of the workbook fetch behind
buscarEstudiante (an error is the exhausted-retries throw), and
`broadcastEnviados` the count the broadcast fan-out returns. -/
structure Entorno where
  esAdmin : Bool
  alumnos : List String
  hoja : Except Unit (List Fila)
  validarPIN : String → String → Bool
  eliminarRelacion : String → Bool
  broadcastEnviados : ℕ
  ultimoSaludo : Option String
  hoy : String

/-- The outcome of handling one message: the effects in program order
up to completion or the throw point, the conversation state as stored
afterwards, the stored greeting date afterwards, and the escaped
exception, if any (no handler in procesarMensaje or the upsert callback
catches it). -/
structure Resultado where
  acciones : List Accion
  estadoFinal : EstadoConv
  saludoFinal : Option String
  errorJs : Option String
deriving DecidableEq

/-- The MENU_PRINCIPAL state with no payload, as enviarMenuPrincipal
stores it. -/
def estadoMenu : EstadoConv :=
  { estado := "MENU_PRINCIPAL", datos := Datos.ninguno }

/-- Greeting text of the first message of the day. -/
def textoSaludo : String :=
  "🐺 ¡Hola! Soy Chilo el lobo asistente virtual del Instituto José Cecilio del Valle.\nEstoy aquí para ayudarte. ¿En qué puedo asistirte hoy? 📚✨."

/-- Permission-denied reply of the broadcast paths. -/
def textoDenegadoBroadcast : String :=
  "❌ No tiene permisos para enviar mensajes broadcast."

/-- Confirmation reply after a broadcast fan-out. -/
def textoConfirmBroadcast (env : Entorno) : String :=
  "✅ Se mandaron " ++ toString env.broadcastEnviados ++ " encargados."

/-- Prompt of menu option 1. -/
def textoRegistroAlumno : String :=
  "📝 *REGISTRO DE ALUMNO*\n\nPor favor, ingrese el número de identidad del alumno (13 dígitos):"

/-- Prompt of the admin broadcast menu. -/
def textoMenuBroadcast : String :=
  "📢 *MENÚ BROADCAST ADMIN*\n\nPor favor, envíe cualquier mensaje (texto, foto, video, etc.) para enviarlo a todos los encargados.\nEscriba *menú* para volver al menú principal."

/-- Rejection of option 6 for a non-admin. -/
def textoOpcionNoValida : String :=
  "❌ Opción no válida."

/-- Reply of option 2 with no registered students. -/
def textoSinAlumnos : String :=
  "❌ No tiene alumnos registrados. Seleccione la opción 1️⃣ para registrar un alumno."

/-- Reply of option 2 when the registered student has no ledger row. -/
def textoSinInfoAlumno : String :=
  "❌ No se encontró información del alumno registrado. Por favor contacte a administración."

/-- Header and footer of the student-selection list. -/
def cabeceraSeleccion : String :=
  "👨‍👩‍👧‍👦 *SELECCIONE ALUMNO*\n\n"

/-- Footer of the student-selection list. -/
def pieSeleccion : String :=
  "\nResponda con el número del alumno para ver su estado de pagos."

/-- Reply of option 5 with no registered students. -/
def textoSinAlumnosEliminar : String :=
  "❌ No tiene alumnos registrados para eliminar."

/-- Header of the removal list. -/
def cabeceraEliminar : String :=
  "🗑️ *ELIMINAR ALUMNO*\n\n"

/-- Footer of the removal list. -/
def pieEliminar : String :=
  "\nResponda con el número del alumno que desea eliminar de su cuenta."

/-- Invalid-option warning of the main menu. -/
def textoOpcionMenu : String :=
  "❓ Opción no válida. Por favor seleccione una opción del menú."

/-- Re-prompt of REGISTRO_ID on a structurally invalid identifier. -/
def textoFormatoIncorrecto : String :=
  "❌ Formato incorrecto. El número de identidad debe tener 13 dígitos numéricos.\n\nIntente nuevamente o escriba *menú* para volver al menú principal."

/-- Re-prompt of REGISTRO_ID on a lookup miss. -/
def textoNoRegistrado : String :=
  "❌ El número de identidad no está registrado en el sistema. Verifique e intente nuevamente."

/-- Reply of REGISTRO_ID on a lookup hit. -/
def textoAlumnoEncontrado (e : Estudiante) : String :=
  "✅ *Alumno encontrado:* " ++ jsCadenaDe e.nombre ++ "\n\nAhora ingrese el PIN de autorización:"

/-- Reply of REGISTRO_PIN on success. -/
def textoRegistroExitoso (e : Estudiante) : String :=
  "✅ *REGISTRO EXITOSO*\n\nEl alumno *" ++ jsCadenaDe e.nombre ++ "* ha sido vinculado a su número.\n\nYa puede consultar su estado de pagos desde el menú principal."

/-- Re-prompt of REGISTRO_PIN on a wrong PIN. -/
def textoPinIncorrecto : String :=
  "❌ PIN incorrecto. Verifique e intente nuevamente o escriba *menú* para volver al menú principal."

/-- Re-prompt of the index-driven states on an invalid selection. -/
def textoOpcionLista : String :=
  "❌ Opción no válida. Por favor seleccione un número de la lista."

/-- Reply when the selected student has no ledger row. -/
def textoSinInfoSeleccionado : String :=
  "❌ No se encontró información del alumno seleccionado. Por favor contacte a administración."

/-- Reply of a successful removal. -/
def textoEliminado (e : Estudiante) : String :=
  "✅ El alumno *" ++ jsCadenaDe e.nombre ++ "* ha sido eliminado de su cuenta correctamente."

/-- Reply of a failed removal. -/
def textoErrorEliminar : String :=
  "❌ Error al eliminar el alumno. Por favor contacte a administración."

/-- Message of the error thrown when the workbook download exhausts its
retries (part_000 line 34), which buscarEstudiante logs and rethrows. -/
def textoErrorDescarga : String :=
  "No se pudo descargar el archivo Excel después de varios intentos."

/-- Message tag of a JavaScript TypeError from reading a property of
null or undefined. -/
def textoTypeError : String :=
  "TypeError"

/-- The identifier structure check of REGISTRO_ID, the regex of 13
decimal digits. -/
def es13Digitos (s : String) : Bool :=
  s.data.length == 13 && s.data.all esDigito

/-- The numbered-list builder of options 2 and 5: one line per
registered id whose lookup succeeds, with a running counter. -/
def lineasAlumnos (hoja : List Fila) (ids : List String) : String :=
  (ids.foldl
    (fun acc idA =>
      match buscarEstudiante hoja idA with
      | some e => (acc.1 ++ toString acc.2 ++ ". " ++ jsCadenaDe e.nombre ++ " - " ++ jsCadenaDe e.grado ++ "\n", acc.2 + 1)
      | Option.none => acc)
    (("" : String), (1 : ℕ))).1

/-- The greeting path: stamp today, send the greeting, store
MENU_PRINCIPAL and render the menu, then stop. -/
def resSaludo (env : Entorno) : Resultado :=
  { acciones := [Accion.envia textoSaludo, Accion.menu]
    estadoFinal := estadoMenu
    saludoFinal := some env.hoy
    errorJs := Option.none }

/-- The keyword-override path: render the main menu. -/
def resMenu (env : Entorno) : Resultado :=
  { acciones := [Accion.menu]
    estadoFinal := estadoMenu
    saludoFinal := env.ultimoSaludo
    errorJs := Option.none }

/-- The MENU_ADMIN_BROADCAST state handler: an admin's message is
broadcast as-is and confirmed, a non-admin is denied; both paths store
MENU_PRINCIPAL and render the menu. -/
def ramaAdminBroadcast (env : Entorno) : Resultado :=
  if env.esAdmin then
    { acciones := [Accion.broadcastMsg, Accion.envia (textoConfirmBroadcast env), Accion.menu]
      estadoFinal := estadoMenu
      saludoFinal := env.ultimoSaludo
      errorJs := Option.none }
  else
    { acciones := [Accion.envia textoDenegadoBroadcast, Accion.menu]
      estadoFinal := estadoMenu
      saludoFinal := env.ultimoSaludo
      errorJs := Option.none }

/-- The broadcast command path: a non-admin is denied with no state
change; an admin broadcasts the text after the command prefix, with no
state change either. -/
def ramaComandoBroadcast (env : Entorno) (est0 : EstadoConv) (mensaje : String) : Resultado :=
  if env.esAdmin then
    let textoB :=
      if empiezaCon "broadcast " (jsMinuscula mensaje) then recorta (quitaPrefijo 10 mensaje)
      else recorta (quitaPrefijo 3 mensaje)
    { acciones := [Accion.broadcastTexto textoB, Accion.envia (textoConfirmBroadcast env)]
      estadoFinal := est0
      saludoFinal := env.ultimoSaludo
      errorJs := Option.none }
  else
    { acciones := [Accion.envia textoDenegadoBroadcast]
      estadoFinal := est0
      saludoFinal := env.ultimoSaludo
      errorJs := Option.none }

/-- The MENU_PRINCIPAL dispatch on the fixed numeric vocabulary.  The
suppression flag of the default branch is always false here because the
greeting path returned before reaching the dispatch. -/
def ramaMenuPrincipal (env : Entorno) (est0 : EstadoConv) (mensaje : String) : Resultado :=
  match mensaje with
  | "1" =>
    { acciones := [Accion.envia textoRegistroAlumno]
      estadoFinal := { estado := "REGISTRO_ID", datos := Datos.ninguno }
      saludoFinal := env.ultimoSaludo
      errorJs := Option.none }
  | "6" =>
    if env.esAdmin then
      { acciones := [Accion.envia textoMenuBroadcast]
        estadoFinal := { estado := "MENU_ADMIN_BROADCAST", datos := Datos.ninguno }
        saludoFinal := env.ultimoSaludo
        errorJs := Option.none }
    else
      { acciones := [Accion.envia textoOpcionNoValida, Accion.menu]
        estadoFinal := estadoMenu
        saludoFinal := env.ultimoSaludo
        errorJs := Option.none }
  | "2" =>
    match env.alumnos with
    | [] =>
      { acciones := [Accion.envia textoSinAlumnos, Accion.menu]
        estadoFinal := estadoMenu
        saludoFinal := env.ultimoSaludo
        errorJs := Option.none }
    | [a0] =>
      match env.hoja with
      | Except.error _ =>
        { acciones := [Accion.logError]
          estadoFinal := est0
          saludoFinal := env.ultimoSaludo
          errorJs := some textoErrorDescarga }
      | Except.ok hoja =>
        match buscarEstudiante hoja a0 with
        | some e =>
          { acciones := [Accion.estadoPagos e.id, Accion.menu]
            estadoFinal := estadoMenu
            saludoFinal := env.ultimoSaludo
            errorJs := Option.none }
        | Option.none =>
          { acciones := [Accion.envia textoSinInfoAlumno, Accion.menu]
            estadoFinal := estadoMenu
            saludoFinal := env.ultimoSaludo
            errorJs := Option.none }
    | _ =>
      match env.hoja with
      | Except.error _ =>
        { acciones := [Accion.logError]
          estadoFinal := est0
          saludoFinal := env.ultimoSaludo
          errorJs := some textoErrorDescarga }
      | Except.ok hoja =>
        { acciones := [Accion.envia (cabeceraSeleccion ++ lineasAlumnos hoja env.alumnos ++ pieSeleccion)]
          estadoFinal := { estado := "SELECCION_ALUMNO", datos := Datos.conAlumnos env.alumnos }
          saludoFinal := env.ultimoSaludo
          errorJs := Option.none }
  | "3" =>
    { acciones := [Accion.infoEscuela]
      estadoFinal := est0
      saludoFinal := env.ultimoSaludo
      errorJs := Option.none }
  | "4" =>
    { acciones := [Accion.contactoAdmin]
      estadoFinal := est0
      saludoFinal := env.ultimoSaludo
      errorJs := Option.none }
  | "5" =>
    match env.alumnos with
    | [] =>
      { acciones := [Accion.envia textoSinAlumnosEliminar, Accion.menu]
        estadoFinal := estadoMenu
        saludoFinal := env.ultimoSaludo
        errorJs := Option.none }
    | _ =>
      match env.hoja with
      | Except.error _ =>
        { acciones := [Accion.logError]
          estadoFinal := est0
          saludoFinal := env.ultimoSaludo
          errorJs := some textoErrorDescarga }
      | Except.ok hoja =>
        { acciones := [Accion.envia (cabeceraEliminar ++ lineasAlumnos hoja env.alumnos ++ pieEliminar)]
          estadoFinal := { estado := "ELIMINAR_ALUMNO", datos := Datos.conAlumnos env.alumnos }
          saludoFinal := env.ultimoSaludo
          errorJs := Option.none }
  | _ =>
    { acciones := [Accion.envia textoOpcionMenu, Accion.menu]
      estadoFinal := estadoMenu
      saludoFinal := env.ultimoSaludo
      errorJs := Option.none }

/-- The REGISTRO_ID handler: structural check of 13 digits, then the
ledger lookup; only a hit moves the state (to REGISTRO_PIN carrying the
identifier). -/
def ramaRegistroId (env : Entorno) (est0 : EstadoConv) (mensaje : String) : Resultado :=
  if es13Digitos mensaje then
    match env.hoja with
    | Except.error _ =>
      { acciones := [Accion.logError]
        estadoFinal := est0
        saludoFinal := env.ultimoSaludo
        errorJs := some textoErrorDescarga }
    | Except.ok hoja =>
      match buscarEstudiante hoja mensaje with
      | some e =>
        { acciones := [Accion.envia (textoAlumnoEncontrado e)]
          estadoFinal := { estado := "REGISTRO_PIN", datos := Datos.conId mensaje }
          saludoFinal := env.ultimoSaludo
          errorJs := Option.none }
      | Option.none =>
        { acciones := [Accion.envia textoNoRegistrado]
          estadoFinal := est0
          saludoFinal := env.ultimoSaludo
          errorJs := Option.none }
  else
    { acciones := [Accion.envia textoFormatoIncorrecto]
      estadoFinal := est0
      saludoFinal := env.ultimoSaludo
      errorJs := Option.none }

/-- The carried identifier read by REGISTRO_PIN; a payload without it
yields the undefined-coerced placeholder, and an absent payload is a
TypeError (modelled by the caller). -/
def idCargado : Datos → String
  | Datos.conId id => id
  | _ => "undefined"

/-- The REGISTRO_PIN handler: validate the PIN for the carried
identifier; on success register the link, greet with the student's name
(a missing ledger row makes that read throw after registering) and
schedule a menu render; on failure re-prompt with no state change. -/
def ramaRegistroPin (env : Entorno) (est0 : EstadoConv) (mensaje : String) : Resultado :=
  match est0.datos with
  | Datos.ninguno =>
    { acciones := []
      estadoFinal := est0
      saludoFinal := env.ultimoSaludo
      errorJs := some textoTypeError }
  | d =>
    let idEst := idCargado d
    if env.validarPIN idEst mensaje then
      match env.hoja with
      | Except.error _ =>
        { acciones := [Accion.registraEncargado idEst, Accion.logError]
          estadoFinal := est0
          saludoFinal := env.ultimoSaludo
          errorJs := some textoErrorDescarga }
      | Except.ok hoja =>
        match buscarEstudiante hoja idEst with
        | some e =>
          { acciones := [Accion.registraEncargado idEst, Accion.envia (textoRegistroExitoso e), Accion.menuProgramado]
            estadoFinal := est0
            saludoFinal := env.ultimoSaludo
            errorJs := Option.none }
        | Option.none =>
          { acciones := [Accion.registraEncargado idEst]
            estadoFinal := est0
            saludoFinal := env.ultimoSaludo
            errorJs := some textoTypeError }
    else
      { acciones := [Accion.envia textoPinIncorrecto]
        estadoFinal := est0
        saludoFinal := env.ultimoSaludo
        errorJs := Option.none }

/-- The SELECCION_ALUMNO handler: a 1-based index into the carried
list; a non-number or negative index re-prompts before the list is
read, an out-of-range index re-prompts, and a valid index renders the
payment status and schedules a menu render.  Reading the candidate list
off a payload that does not carry one is a TypeError. -/
def ramaSeleccion (env : Entorno) (est0 : EstadoConv) (mensaje : String) : Resultado :=
  match parseIntJs mensaje with
  | Option.none =>
    { acciones := [Accion.envia textoOpcionLista]
      estadoFinal := est0
      saludoFinal := env.ultimoSaludo
      errorJs := Option.none }
  | some k =>
    if k - 1 < 0 then
      { acciones := [Accion.envia textoOpcionLista]
        estadoFinal := est0
        saludoFinal := env.ultimoSaludo
        errorJs := Option.none }
    else
      match est0.datos with
      | Datos.conAlumnos l =>
        if (l.length : ℤ) ≤ k - 1 then
          { acciones := [Accion.envia textoOpcionLista]
            estadoFinal := est0
            saludoFinal := env.ultimoSaludo
            errorJs := Option.none }
        else
          let idAlumno := l.getD (k - 1).toNat ""
          match env.hoja with
          | Except.error _ =>
            { acciones := [Accion.logError]
              estadoFinal := est0
              saludoFinal := env.ultimoSaludo
              errorJs := some textoErrorDescarga }
          | Except.ok hoja =>
            match buscarEstudiante hoja idAlumno with
            | some e =>
              { acciones := [Accion.estadoPagos e.id, Accion.menuProgramado]
                estadoFinal := est0
                saludoFinal := env.ultimoSaludo
                errorJs := Option.none }
            | Option.none =>
              { acciones := [Accion.envia textoSinInfoSeleccionado, Accion.menu]
                estadoFinal := estadoMenu
                saludoFinal := env.ultimoSaludo
                errorJs := Option.none }
      | _ =>
        { acciones := []
          estadoFinal := est0
          saludoFinal := env.ultimoSaludo
          errorJs := some textoTypeError }

/-- The ELIMINAR_ALUMNO handler: a 1-based index into the carried list;
on a valid index the link is removed first, and only then is the
success text built from the looked-up student, so a missing ledger row
throws after the removal with no rollback. -/
def ramaEliminar (env : Entorno) (est0 : EstadoConv) (mensaje : String) : Resultado :=
  match parseIntJs mensaje with
  | Option.none =>
    { acciones := [Accion.envia textoOpcionLista]
      estadoFinal := est0
      saludoFinal := env.ultimoSaludo
      errorJs := Option.none }
  | some k =>
    if k - 1 < 0 then
      { acciones := [Accion.envia textoOpcionLista]
        estadoFinal := est0
        saludoFinal := env.ultimoSaludo
        errorJs := Option.none }
    else
      match est0.datos with
      | Datos.conAlumnos l =>
        if (l.length : ℤ) ≤ k - 1 then
          { acciones := [Accion.envia textoOpcionLista]
            estadoFinal := est0
            saludoFinal := env.ultimoSaludo
            errorJs := Option.none }
        else
          let idAlumno := l.getD (k - 1).toNat ""
          match env.hoja with
          | Except.error _ =>
            { acciones := [Accion.logError]
              estadoFinal := est0
              saludoFinal := env.ultimoSaludo
              errorJs := some textoErrorDescarga }
          | Except.ok hoja =>
            let estudiante := buscarEstudiante hoja idAlumno
            if env.eliminarRelacion idAlumno then
              match estudiante with
              | some e =>
                { acciones := [Accion.llamaEliminar idAlumno, Accion.envia (textoEliminado e), Accion.menuProgramado]
                  estadoFinal := est0
                  saludoFinal := env.ultimoSaludo
                  errorJs := Option.none }
              | Option.none =>
                { acciones := [Accion.llamaEliminar idAlumno]
                  estadoFinal := est0
                  saludoFinal := env.ultimoSaludo
                  errorJs := some textoTypeError }
            else
              { acciones := [Accion.llamaEliminar idAlumno, Accion.envia textoErrorEliminar, Accion.menuProgramado]
                estadoFinal := est0
                saludoFinal := env.ultimoSaludo
                errorJs := Option.none }
      | _ =>
        { acciones := []
          estadoFinal := est0
          saludoFinal := env.ultimoSaludo
          errorJs := some textoTypeError }

/-- The switch of procesarMensaje on the stored state name; an
unrecognized name falls to the default branch, which renders the main
menu. -/
def ramaEstados (env : Entorno) (est0 : EstadoConv) (mensaje : String) : Resultado :=
  if est0.estado = "MENU_PRINCIPAL" then ramaMenuPrincipal env est0 mensaje
  else if est0.estado = "REGISTRO_ID" then ramaRegistroId env est0 mensaje
  else if est0.estado = "REGISTRO_PIN" then ramaRegistroPin env est0 mensaje
  else if est0.estado = "SELECCION_ALUMNO" then ramaSeleccion env est0 mensaje
  else if est0.estado = "ELIMINAR_ALUMNO" then ramaEliminar env est0 mensaje
  else resMenu env

/-- Model of procesarMensaje: the greeting hook, the
MENU_ADMIN_BROADCAST state handler, the broadcast command hook and the
menu keyword hook, in source order, then the per-state dispatch. -/
def procesarMensaje (env : Entorno) (est0 : EstadoConv) (mensaje : String) : Resultado :=
  if env.ultimoSaludo ≠ some env.hoy then resSaludo env
  else if est0.estado = "MENU_ADMIN_BROADCAST" then ramaAdminBroadcast env
  else if empiezaCon "broadcast " (jsMinuscula mensaje) || empiezaCon "bc " (jsMinuscula mensaje) then
    ramaComandoBroadcast env est0 mensaje
  else if jsMinuscula mensaje = "menu" ∨ jsMinuscula mensaje = "menú" then resMenu env
  else ramaEstados env est0 mensaje

/-- One inbound channel event as the messages.upsert callback sees it:
whether it is the bot's own, whether a message body is present, and the
optional plain and extended text fields. -/
structure MensajeEntrante where
  fromMe : Bool
  tieneMensaje : Bool
  conversation : Option String
  extendedText : Option String

/-- The empty outcome of an event the callback ignores. -/
def resNada (env : Entorno) (est0 : EstadoConv) : Resultado :=
  { acciones := []
    estadoFinal := est0
    saludoFinal := env.ultimoSaludo
    errorJs := Option.none }

/-- Model of the messages.upsert callback: skip own or empty events,
extract and trim the text, and hand a non-empty text to
procesarMensaje.  The callback installs no error handler, so whatever
procesarMensaje throws is the callback's own outcome. -/
def handleUpsert (env : Entorno) (est0 : EstadoConv) (m : MensajeEntrante) : Resultado :=
  if !m.fromMe && m.tieneMensaje then
    let texto :=
      match m.conversation with
      | some s => recorta s
      | Option.none =>
        match m.extendedText with
        | some s => recorta s
        | Option.none => ""
    if texto ≠ "" then procesarMensaje env est0 texto else resNada env est0
  else resNada env est0

/-- A cache entry for the fixed Dropbox path: the blob and the revision
fingerprint, which downloadWithRetry always writes together after a
successful download (the entry exists iff both files exist). -/
structure CacheEntry where
  bytes : String
  rev : String
deriving DecidableEq

/-- The outcome of one filesDownload attempt: the blob with its
revision, an authorization failure (401 or expired token), or any other
error. -/
inductive DlOutcome where
  | ok (bytes rev : String)
  | err401
  | errOther
deriving DecidableEq

/-- The upstream as one downloadWithRetry call observes it: the
result of the filesGetMetadata probe (`Option.none` is any failure of
the cache-validation block, which is caught and logged), the successive
filesDownload outcomes, and whether the reactive token refresh
succeeds. -/
structure DbxServer where
  metaRev : Option String
  dlOutcomes : List DlOutcome
  refreshOk : Bool

/-- The outcome of downloadWithRetry: the served blob (`Option.none`
when the call throws), the cache entry afterwards, and how many
filesDownload calls were performed. -/
structure DWRes where
  resultado : Option String
  cacheFinal : Option CacheEntry
  descargas : ℕ
deriving DecidableEq

/-- The cache-validation block: with caching on, no forced refresh, an
existing entry and a successful metadata probe, the cached blob is
served iff the upstream revision equals the stored fingerprint. -/
def cacheHit (useCache forceRefresh : Bool) (cache : Option CacheEntry) (srv : DbxServer) : Bool :=
  useCache && !forceRefresh &&
    (match cache, srv.metaRev with
     | some e, some r => r == e.rev
     | _, _ => false)

/-- The retry loop of downloadWithRetry: while attempts remain, one
filesDownload call per attempt; success writes blob and fingerprint
together and returns; an authorization failure clears and refreshes the
token and retries (a failed refresh escapes); any other error breaks
the loop; exhausted attempts rethrow the last error.  The cache is
only ever written on the success path. -/
def dwrLoop (refreshOk : Bool) : ℕ → List DlOutcome → Option CacheEntry → ℕ → DWRes
  | 0, _, cache, d => { resultado := Option.none, cacheFinal := cache, descargas := d }
  | _ + 1, [], cache, d => { resultado := Option.none, cacheFinal := cache, descargas := d }
  | fuel + 1, o :: resto, cache, d =>
    match o with
    | DlOutcome.ok b r =>
      { resultado := some b, cacheFinal := some { bytes := b, rev := r }, descargas := d + 1 }
    | DlOutcome.err401 =>
      if refreshOk then dwrLoop refreshOk fuel resto cache (d + 1)
      else { resultado := Option.none, cacheFinal := cache, descargas := d + 1 }
    | DlOutcome.errOther =>
      { resultado := Option.none, cacheFinal := cache, descargas := d + 1 }

/-- Model of downloadWithRetry for the fixed path: serve the cache on a
fingerprint match without any download, otherwise run the retry
loop. -/
def downloadWithRetry (useCache forceRefresh : Bool) (maxRetries : ℕ)
    (cache : Option CacheEntry) (srv : DbxServer) : DWRes :=
  if cacheHit useCache forceRefresh cache srv then
    { resultado := some ((cache.getD { bytes := "", rev := "" }).bytes)
      cacheFinal := cache
      descargas := 0 }
  else dwrLoop srv.refreshOk maxRetries srv.dlOutcomes cache 0

/-- The two due-date constructions agree: the JavaScript Date month
normalization produces exactly the 11th of the calendar month following
the pending month, with the December/January year anchoring of the
source. -/
theorem fechaVencimiento_eq_spec (y : ℤ) (mesActual mesNum : ℕ) :
    fechaVencimiento y mesActual mesNum = vencimientoSpec y mesActual mesNum := by
  unfold fechaVencimiento vencimientoSpec jsDate
  by_cases h12 : mesNum = 12
  · by_cases h1 : mesActual = 1
    · simp [h12, h1]
    · simp [h12, h1]
  · simp [h12]

/-- A conditional foldl accumulation is the sum of the conditional
contributions. -/
theorem foldl_si_suma (p : ℕ → Prop) [DecidablePred p] (c : ℚ) (l : List ℕ) (a : ℚ) :
    l.foldl (fun acc n => if p n then acc + c else acc) a
      = a + (l.map fun n => if p n then c else 0).sum := by
  induction l generalizing a with
  | nil => simp
  | cons hd tl ih =>
    simp only [List.foldl_cons, List.map_cons, List.sum_cons, ih]
    by_cases h : p hd
    · simp [h]; ring
    · simp [h]

/-- C1 (confirmed).  For every student and every pending month selected
by calcularDeuda, the month contributes exactly five percent of the
monthly amount (totalPagar) to the late fee iff the evaluation instant
lies strictly after the due instant, the 11th day of the month
following the pending month — where a pending December with a January
evaluation keeps the anchor year stepped back so the comparison date is
January 11 of the current year, a pending December otherwise wraps to
January 11 of the next year — and contributes nothing otherwise; the
reported deudaMora field is that accumulated fee formatted to two
decimals. -/
theorem mora_por_periodo (e : Estudiante) (t : Instante) :
    deudaMoraQ e t
      = ((mesesPendientesCalc e t.mes).map fun n =>
          if instanteLt (vencimientoSpec t.anio t.mes n) t then e.totalPagar * (5 / 100) else 0).sum
    ∧ (calcularDeuda e t).deudaMora = toFixed2 (deudaMoraQ e t) := by
  constructor
  · unfold deudaMoraQ
    rw [foldl_si_suma (fun n => instanteLt (fechaVencimiento t.anio t.mes n) t)]
    simp [fechaVencimiento_eq_spec]
  · rfl

/-- The plan-A student of the spec scenario: monthly amount 500,
February through April recorded, May and June blank. -/
def estEscenario : Estudiante :=
  { nombre := CellValue.str "ALUMNO EJEMPLO"
    grado := CellValue.str "7mo"
    id := "0000000000000"
    planDePago := CellValue.num 10
    meses := [CellValue.nulo, CellValue.str "500", CellValue.str "500", CellValue.str "500",
              CellValue.nulo, CellValue.nulo, CellValue.nulo, CellValue.nulo, CellValue.nulo,
              CellValue.nulo, CellValue.nulo, CellValue.nulo]
    totalPagar := 500
    valorCeldaOriginal := CellValue.num 500 }

/-- C2 (confirmed).  The plan-A scenario: monthly amount 500, evaluated
on June 20 of any year at any time of day, February through April
recorded, May and June blank, yields pending months MAYO and JUNIO in
calendar order and upper case, deudaMensualidad 1000.00, deudaMora
25.00 (only the May due date June 11 has passed), totalDeuda 1025.00,
and alDia false. -/
theorem escenario_plan_a_junio (y : ℤ) (ms : ℕ) (hms : ms < 86400000) :
    calcularDeuda estEscenario { anio := y, mes := 6, dia := 20, msDia := ms } =
      { deudaMensualidad := "1000.00"
        deudaMora := "25.00"
        totalDeuda := "1025.00"
        mesesPendientes := ["MAYO", "JUNIO"]
        cuotaMensual := "500.00"
        alDia := false } := by
  have hpend : mesesPendientesCalc estEscenario 6 = [5, 6] := by decide
  have h5 : instanteLt (fechaVencimiento y 6 5) { anio := y, mes := 6, dia := 20, msDia := ms } := by
    show claveInstante _ < claveInstante _
    simp only [fechaVencimiento, jsDate, claveInstante]
    norm_num
    omega
  have h6 : ¬ instanteLt (fechaVencimiento y 6 6) { anio := y, mes := 6, dia := 20, msDia := ms } := by
    show ¬ claveInstante _ < claveInstante _
    simp only [fechaVencimiento, jsDate, claveInstante]
    norm_num
    omega
  have hmora : deudaMoraQ estEscenario { anio := y, mes := 6, dia := 20, msDia := ms } = 25 := by
    unfold deudaMoraQ
    rw [show Instante.mes { anio := y, mes := 6, dia := 20, msDia := ms } = 6 from rfl, hpend]
    simp only [List.foldl_cons, List.foldl_nil, if_pos h5, if_neg h6]
    decide
  unfold calcularDeuda
  rw [show Instante.mes { anio := y, mes := 6, dia := 20, msDia := ms } = 6 from rfl, hpend, hmora]
  decide

/-- The blankness test of a recorded cell, unfolded to the three
specification cases: a missing cell, a falsy cell (the number 0 or the
empty string, the latter also whitespace-only), or a whitespace-only
string. -/
theorem esBlank_desglose (v : CellValue) :
    esBlank v = true ↔
      (v = CellValue.nulo ∨ v = CellValue.num 0 ∨ ∃ s, v = CellValue.str s ∧ recorta s = "") := by
  cases v with
  | num q => simp [esBlank]
  | str s => simp [esBlank]
  | nulo => simp [esBlank]
  | obj texto resultado => simp [esBlank]

/-- C3 (confirmed).  The pending list of calcularDeuda holds exactly
the months from the plan's first payable month (2 for plan A, the
payment-plan cell being the number 10; 1 otherwise) through the current
calendar month whose recorded cell is missing, falsy, or
whitespace-only; it is strictly increasing (calendar order);
deudaMensualidad is the monthly amount times its length; and alDia
holds iff it is empty. -/
theorem pendientes_caracterizacion (e : Estudiante) (t : Instante)
    (h1 : 1 ≤ t.mes) (h2 : t.mes ≤ 12) :
    (∀ n : ℕ, n ∈ mesesPendientesCalc e t.mes ↔
        ((if e.planDePago = CellValue.num 10 then 2 else 1) ≤ n ∧ n ≤ t.mes ∧
          (mesDe e n = CellValue.nulo ∨ mesDe e n = CellValue.num 0 ∨
            ∃ s, mesDe e n = CellValue.str s ∧ recorta s = "")))
    ∧ List.Pairwise (· < ·) (mesesPendientesCalc e t.mes)
    ∧ (calcularDeuda e t).deudaMensualidad
        = toFixed2 (e.totalPagar * ((mesesPendientesCalc e t.mes).length : ℚ))
    ∧ ((calcularDeuda e t).alDia = true ↔ mesesPendientesCalc e t.mes = []) := by
  have hbase : 1 ≤ primerMesPagable e := by
    unfold primerMesPagable; split <;> omega
  refine ⟨?_, ?_, rfl, ?_⟩
  · intro n
    rw [show (if e.planDePago = CellValue.num 10 then 2 else 1) = primerMesPagable e from rfl]
    rw [← esBlank_desglose]
    simp only [mesesPendientesCalc, List.mem_filter, mesesNums, List.mem_map, List.mem_range,
      Bool.and_eq_true, decide_eq_true_eq]
    constructor
    · rintro ⟨⟨⟨i, hi, rfl⟩, hp, hn⟩, hb⟩
      exact ⟨hp, hn, hb⟩
    · rintro ⟨hp, hn, hb⟩
      exact ⟨⟨⟨n - 1, by omega, by omega⟩, hp, hn⟩, hb⟩
  · have hnums : List.Pairwise (· < ·) mesesNums := by decide
    exact (hnums.filter _).filter _
  · simp only [calcularDeuda, decide_eq_true_eq, List.length_eq_zero]

/-- Witness of the C3 characterization at the scenario student on June
20, checking one membership instance concretely. -/
theorem pendientes_caracterizacion_witness :
    5 ∈ mesesPendientesCalc estEscenario 6 ∧
      ((if estEscenario.planDePago = CellValue.num 10 then 2 else 1) ≤ 5 ∧ 5 ≤ 6 ∧
        (mesDe estEscenario 5 = CellValue.nulo ∨ mesDe estEscenario 5 = CellValue.num 0 ∨
          ∃ s, mesDe estEscenario 5 = CellValue.str s ∧ recorta s = "")) := by
  have h := (pendientes_caracterizacion estEscenario
    { anio := 2025, mes := 6, dia := 20, msDia := 0 } (by decide) (by decide)).1 5
  exact ⟨h.mpr ⟨by decide, by decide, Or.inl (by decide)⟩, by decide, by decide, Or.inl (by decide)⟩

/-- Witness of the C2 scenario at the concrete year 2025 and midnight. -/
theorem escenario_plan_a_junio_witness :
    calcularDeuda estEscenario { anio := 2025, mes := 6, dia := 20, msDia := 0 } =
      { deudaMensualidad := "1000.00"
        deudaMora := "25.00"
        totalDeuda := "1025.00"
        mesesPendientes := ["MAYO", "JUNIO"]
        cuotaMensual := "500.00"
        alDia := false } :=
  escenario_plan_a_junio 2025 0 (by decide)

/-- The getLast? of a cons, expressed through the tail. -/
theorem ultimaDeCons {α : Type} (a : α) (l : List α) :
    (a :: l).getLast? = some (l.getLast?.getD a) := by
  induction l generalizing a with
  | nil => rfl
  | cons b tl ih => simp [List.getLast?_cons_cons, ih b]

/-- The scan of buscarEstudiante keeps the last matching row: starting
from any row number and accumulator, the result is the student of the
last row the numbered filter keeps, else the accumulator. -/
theorem buscarAux_ultima (id : String) (rs : List Fila) : ∀ (n : ℕ) (acc : Option Estudiante),
    buscarAux id acc n rs =
      match (filasQueCoinciden id n rs).getLast? with
      | some r => some (estudianteDeFila id r)
      | Option.none => acc := by
  induction rs with
  | nil => intro n acc; rfl
  | cons r resto ih =>
    intro n acc
    simp only [buscarAux, filasQueCoinciden]
    by_cases hn : n < 3
    · rw [if_pos hn, if_neg (by omega : ¬ (3 ≤ n ∧ filaCoincide id r = true)), ih]
    · rw [if_neg hn]
      by_cases hc : filaCoincide id r = true
      · rw [if_pos hc, if_pos ⟨by omega, hc⟩, ih, ultimaDeCons]
        cases hcl : (filasQueCoinciden id (n + 1) resto).getLast? with
        | none => simp [hcl]
        | some r2 => simp [hcl]
      · rw [if_neg hc, if_neg (by simp [hc] : ¬ (3 ≤ n ∧ filaCoincide id r = true)), ih]

/-- C4 (amended, proved).  buscarEstudiante scans the worksheet rows
after the fixed two-row header offset and returns the student built
from the LAST row whose identity cell stringifies equal to the id
(every later match overwrites the earlier one; with unique identifiers
this is the unique matching row), or null when no row matches. -/
theorem buscar_ultima_coincidencia (hoja : List Fila) (id : String) :
    buscarEstudiante hoja id =
      match (filasQueCoinciden id 1 hoja).getLast? with
      | some r => some (estudianteDeFila id r)
      | Option.none => Option.none :=
  buscarAux_ultima id hoja 1 Option.none

/-- A worksheet row with the given identity and name cells used by the
duplicate-id counterexample. -/
def filaEj (idv nom : String) : Fila :=
  { idC := CellValue.str idv
    nombreC := CellValue.str nom
    gradoC := CellValue.str "7mo"
    planC := CellValue.num 10
    totalC := CellValue.num 500
    mesesC := List.replicate 12 CellValue.nulo }

/-- A worksheet whose two header rows are followed by two data rows
sharing the identity 7. -/
def hojaDup : List Fila :=
  [filaEj "x" "ENCABEZADO1", filaEj "x" "ENCABEZADO2",
   filaEj "7" "ALUMNO A", filaEj "7" "ALUMNO B"]

/-- C4 (counterexample).  On a worksheet where rows 3 and 4 both carry
the requested identity, the first matching row is row 3 (name ALUMNO
A), but buscarEstudiante returns the student of row 4 (name ALUMNO B):
the claim that the first matching row is returned is false. -/
theorem buscar_no_primera_contraejemplo :
    ((filasQueCoinciden "7" 1 hojaDup).head?.map Fila.nombreC) = some (CellValue.str "ALUMNO A")
    ∧ (buscarEstudiante hojaDup "7").map Estudiante.nombre = some (CellValue.str "ALUMNO B")
    ∧ (buscarEstudiante hojaDup "7").map Estudiante.nombre ≠ some (CellValue.str "ALUMNO A") := by
  refine ⟨by decide, by decide, by decide⟩

/-- A non-admin baseline environment over an empty worksheet with the
greeting already stamped today. -/
def entEj : Entorno :=
  { esAdmin := false
    alumnos := []
    hoja := Except.ok []
    validarPIN := fun _ _ => false
    eliminarRelacion := fun _ => false
    broadcastEnviados := 0
    ultimoSaludo := some "2025-06-20"
    hoy := "2025-06-20" }

/-- An admin environment, otherwise like `entEj`. -/
def entAdmin : Entorno :=
  { esAdmin := true
    alumnos := []
    hoja := Except.ok []
    validarPIN := fun _ _ => false
    eliminarRelacion := fun _ => false
    broadcastEnviados := 0
    ultimoSaludo := some "2025-06-20"
    hoy := "2025-06-20" }

/-- An environment whose workbook fetch fails (the download retries are
exhausted), otherwise like `entEj`. -/
def entError : Entorno :=
  { esAdmin := false
    alumnos := ["1234567890123"]
    hoja := Except.error ()
    validarPIN := fun _ _ => false
    eliminarRelacion := fun _ => false
    broadcastEnviados := 0
    ultimoSaludo := some "2025-06-20"
    hoy := "2025-06-20" }

/-- An environment with one linked student missing from the (empty)
worksheet whose link removal succeeds, otherwise like `entEj`. -/
def entElim : Entorno :=
  { esAdmin := false
    alumnos := ["1111111111111"]
    hoja := Except.ok []
    validarPIN := fun _ _ => false
    eliminarRelacion := fun _ => true
    broadcastEnviados := 0
    ultimoSaludo := some "2025-06-20"
    hoy := "2025-06-20" }

/-- C5 (amended, proved).  For every user, every conversation state
OTHER than MENU_ADMIN_BROADCAST, and every message that is not the
first of the day, a text whose lowercased form is menu or menú renders
the main menu, leaves the user in MENU_PRINCIPAL, and performs no other
action. -/
theorem menu_override_fuera_de_broadcast (env : Entorno) (est0 : EstadoConv) (mensaje : String)
    (hsal : env.ultimoSaludo = some env.hoy)
    (hest : est0.estado ≠ "MENU_ADMIN_BROADCAST")
    (hm : jsMinuscula mensaje = "menu" ∨ jsMinuscula mensaje = "menú") :
    procesarMensaje env est0 mensaje = resMenu env
    ∧ (procesarMensaje env est0 mensaje).estadoFinal.estado = "MENU_PRINCIPAL"
    ∧ (procesarMensaje env est0 mensaje).acciones = [Accion.menu] := by
  have hpre : procesarMensaje env est0 mensaje = resMenu env := by
    unfold procesarMensaje
    rw [hsal]
    cases hm with
    | inl h => rw [h]; simp [hest, empiezaCon]
    | inr h => rw [h]; simp [hest, empiezaCon]
  exact ⟨hpre, by rw [hpre]; rfl, by rw [hpre]; rfl⟩

/-- Witness of the C5 override with a user parked in REGISTRO_ID who
sends MENÚ. -/
theorem menu_override_fuera_de_broadcast_witness :
    procesarMensaje entEj { estado := "REGISTRO_ID", datos := Datos.ninguno } "MENÚ" = resMenu entEj
    ∧ (procesarMensaje entEj { estado := "REGISTRO_ID", datos := Datos.ninguno } "MENÚ").estadoFinal.estado
        = "MENU_PRINCIPAL"
    ∧ (procesarMensaje entEj { estado := "REGISTRO_ID", datos := Datos.ninguno } "MENÚ").acciones
        = [Accion.menu] :=
  menu_override_fuera_de_broadcast entEj { estado := "REGISTRO_ID", datos := Datos.ninguno } "MENÚ"
    rfl (by decide) (Or.inr (by decide))

/-- C5 (counterexample).  An admin parked in MENU_ADMIN_BROADCAST who
sends menu has the message consumed by the broadcast state handler
first: the fan-out (the state's normal action) IS performed, refuting
the claim that the keyword override skips the state's normal action in
every state. -/
theorem menu_en_broadcast_contraejemplo :
    Accion.broadcastMsg ∈
      (procesarMensaje entAdmin { estado := "MENU_ADMIN_BROADCAST", datos := Datos.ninguno } "menu").acciones
    ∧ (procesarMensaje entAdmin { estado := "MENU_ADMIN_BROADCAST", datos := Datos.ninguno } "menu").acciones
        ≠ [Accion.menu] := by
  refine ⟨by decide, by decide⟩

/-- C6 (confirmed).  In state REGISTRO_ID (with the pre-dispatch hooks
not firing: not the first message of the day, not the menu keyword, not
the broadcast command, workbook available): a message that is not 13
decimal digits re-prompts without state change — in particular any
12-digit string — and a 13-digit message re-prompts without state
change on a lookup miss, or moves to REGISTRO_PIN carrying the
identifier on a lookup hit. -/
theorem registro_id_transiciones (env : Entorno) (est0 : EstadoConv) (mensaje : String) (hoja : List Fila)
    (hsal : env.ultimoSaludo = some env.hoy)
    (hest : est0.estado = "REGISTRO_ID")
    (hm : jsMinuscula mensaje ≠ "menu" ∧ jsMinuscula mensaje ≠ "menú")
    (hbc : (empiezaCon "broadcast " (jsMinuscula mensaje) || empiezaCon "bc " (jsMinuscula mensaje)) = false)
    (hhoja : env.hoja = Except.ok hoja) :
    (es13Digitos mensaje = false →
      procesarMensaje env est0 mensaje =
        { acciones := [Accion.envia textoFormatoIncorrecto], estadoFinal := est0
          saludoFinal := env.ultimoSaludo, errorJs := Option.none })
    ∧ (∀ e, es13Digitos mensaje = true → buscarEstudiante hoja mensaje = some e →
      procesarMensaje env est0 mensaje =
        { acciones := [Accion.envia (textoAlumnoEncontrado e)]
          estadoFinal := { estado := "REGISTRO_PIN", datos := Datos.conId mensaje }
          saludoFinal := env.ultimoSaludo, errorJs := Option.none })
    ∧ (es13Digitos mensaje = true → buscarEstudiante hoja mensaje = Option.none →
      procesarMensaje env est0 mensaje =
        { acciones := [Accion.envia textoNoRegistrado], estadoFinal := est0
          saludoFinal := env.ultimoSaludo, errorJs := Option.none }) := by
  have hred : procesarMensaje env est0 mensaje = ramaRegistroId env est0 mensaje := by
    unfold procesarMensaje ramaEstados
    rw [hsal, hbc, hest]
    simp [hm.1, hm.2]
  refine ⟨?_, ?_, ?_⟩
  · intro h13
    rw [hred]
    unfold ramaRegistroId
    rw [h13]
    rfl
  · intro e h13 hbus
    rw [hred]
    unfold ramaRegistroId
    rw [h13, hhoja]
    simp [hbus]
  · intro h13 hbus
    rw [hred]
    unfold ramaRegistroId
    rw [h13, hhoja]
    simp [hbus]

/-- Witness of the C6 contract: a 12-digit identifier is rejected and
the state remains REGISTRO_ID. -/
theorem registro_id_transiciones_witness :
    procesarMensaje entEj { estado := "REGISTRO_ID", datos := Datos.ninguno } "123456789012" =
      { acciones := [Accion.envia textoFormatoIncorrecto]
        estadoFinal := { estado := "REGISTRO_ID", datos := Datos.ninguno }
        saludoFinal := entEj.ultimoSaludo, errorJs := Option.none } :=
  (registro_id_transiciones entEj { estado := "REGISTRO_ID", datos := Datos.ninguno }
    "123456789012" [] rfl rfl (by decide) (by decide) rfl).1 (by decide)

/-- C7 (confirmed).  A non-admin outside MENU_ADMIN_BROADCAST whose
message begins with the broadcast or bc command prefix (lowercased) is
answered only with the permission-denied message: no broadcast of
either kind occurs and the stored conversation state is exactly what it
was. -/
theorem broadcast_no_admin_rechazado (env : Entorno) (est0 : EstadoConv) (mensaje : String)
    (hsal : env.ultimoSaludo = some env.hoy)
    (hest : est0.estado ≠ "MENU_ADMIN_BROADCAST")
    (hadmin : env.esAdmin = false)
    (hbc : (empiezaCon "broadcast " (jsMinuscula mensaje) || empiezaCon "bc " (jsMinuscula mensaje)) = true) :
    procesarMensaje env est0 mensaje =
      { acciones := [Accion.envia textoDenegadoBroadcast], estadoFinal := est0
        saludoFinal := env.ultimoSaludo, errorJs := Option.none }
    ∧ ∀ a ∈ (procesarMensaje env est0 mensaje).acciones,
        a ≠ Accion.broadcastMsg ∧ ∀ s, a ≠ Accion.broadcastTexto s := by
  have hpre : procesarMensaje env est0 mensaje =
      { acciones := [Accion.envia textoDenegadoBroadcast], estadoFinal := est0
        saludoFinal := env.ultimoSaludo, errorJs := Option.none } := by
    unfold procesarMensaje ramaComandoBroadcast
    rw [hsal, hbc, hadmin]
    simp [hest]
  refine ⟨hpre, ?_⟩
  intro a ha
  rw [hpre] at ha
  simp only [List.mem_singleton] at ha
  subst ha
  exact ⟨by simp, fun s => by simp⟩

/-- Witness of the C7 denial for a non-admin sending the bc prefix from
the main menu. -/
theorem broadcast_no_admin_rechazado_witness :
    procesarMensaje entEj estadoMenu "bc hola a todos" =
      { acciones := [Accion.envia textoDenegadoBroadcast], estadoFinal := estadoMenu
        saludoFinal := entEj.ultimoSaludo, errorJs := Option.none } :=
  (broadcast_no_admin_rechazado entEj estadoMenu "bc hola a todos"
    rfl (by decide) rfl (by decide)).1

/-- C9 (amended, proved).  An error thrown while handling a message is
logged where buscarEstudiante catches and rethrows it, but nothing
above catches it: it escapes procesarMensaje — and hence the
messages.upsert callback, which installs no handler — while the
sender's stored state and greeting stamp stay as they were.  Shown on
the REGISTRO_ID lookup path with the workbook fetch failing. -/
theorem error_logueado_y_propagado (env : Entorno) (est0 : EstadoConv) (mensaje : String)
    (hsal : env.ultimoSaludo = some env.hoy)
    (hest : est0.estado = "REGISTRO_ID")
    (hm : jsMinuscula mensaje ≠ "menu" ∧ jsMinuscula mensaje ≠ "menú")
    (hbc : (empiezaCon "broadcast " (jsMinuscula mensaje) || empiezaCon "bc " (jsMinuscula mensaje)) = false)
    (h13 : es13Digitos mensaje = true)
    (hhoja : env.hoja = Except.error ())
    (hrec : recorta mensaje = mensaje)
    (hne : mensaje ≠ "") :
    procesarMensaje env est0 mensaje =
      { acciones := [Accion.logError], estadoFinal := est0
        saludoFinal := env.ultimoSaludo, errorJs := some textoErrorDescarga }
    ∧ handleUpsert env est0
        { fromMe := false, tieneMensaje := true, conversation := some mensaje, extendedText := Option.none } =
      { acciones := [Accion.logError], estadoFinal := est0
        saludoFinal := env.ultimoSaludo, errorJs := some textoErrorDescarga } := by
  have hpre : procesarMensaje env est0 mensaje =
      { acciones := [Accion.logError], estadoFinal := est0
        saludoFinal := env.ultimoSaludo, errorJs := some textoErrorDescarga } := by
    have hred : procesarMensaje env est0 mensaje = ramaRegistroId env est0 mensaje := by
      unfold procesarMensaje ramaEstados
      rw [hsal, hbc, hest]
      simp [hm.1, hm.2]
    rw [hred]
    unfold ramaRegistroId
    rw [h13, hhoja]
    rfl
  refine ⟨hpre, ?_⟩
  unfold handleUpsert
  simp only [Bool.not_false, Bool.true_and, if_true]
  simp [hrec, hne, hpre]

/-- Witness of the C9 error path at a concrete 13-digit lookup with the
fetch failing. -/
theorem error_logueado_y_propagado_witness :
    procesarMensaje entError { estado := "REGISTRO_ID", datos := Datos.ninguno } "1234567890123" =
      { acciones := [Accion.logError]
        estadoFinal := { estado := "REGISTRO_ID", datos := Datos.ninguno }
        saludoFinal := entError.ultimoSaludo, errorJs := some textoErrorDescarga } :=
  (error_logueado_y_propagado entError { estado := "REGISTRO_ID", datos := Datos.ninguno }
    "1234567890123" rfl rfl (by decide) (by decide) (by decide) rfl (by decide) (by decide)).1

/-- C9 (counterexample).  A concrete inbound event whose handling fails
leaves the messages.upsert callback with an escaped error: the claim
that every error is caught at the top of the handling unit and does not
propagate out of the handler is false. -/
theorem error_propaga_contraejemplo :
    (handleUpsert entError { estado := "REGISTRO_ID", datos := Datos.ninguno }
      { fromMe := false, tieneMensaje := true, conversation := some "1234567890123"
        extendedText := Option.none }).errorJs = some textoErrorDescarga
    ∧ (handleUpsert entError { estado := "REGISTRO_ID", datos := Datos.ninguno }
      { fromMe := false, tieneMensaje := true, conversation := some "1234567890123"
        extendedText := Option.none }).errorJs ≠ Option.none := by
  refine ⟨by decide, by decide⟩

/-- C10 (confirmed).  In ELIMINAR_ALUMNO, the valid index 1 whose
stored student id has no worksheet row removes the guardian link first
(the oracle returns true: the link existed and was removed) and then
throws a TypeError reading the name of the null lookup result instead
of re-prompting — the removal is not rolled back by the error. -/
theorem eliminar_sin_fila_lanza :
    procesarMensaje entElim
        { estado := "ELIMINAR_ALUMNO", datos := Datos.conAlumnos ["1111111111111"] } "1" =
      { acciones := [Accion.llamaEliminar "1111111111111"]
        estadoFinal := { estado := "ELIMINAR_ALUMNO", datos := Datos.conAlumnos ["1111111111111"] }
        saludoFinal := some "2025-06-20", errorJs := some textoTypeError }
    ∧ entElim.eliminarRelacion "1111111111111" = true
    ∧ buscarEstudiante [] "1111111111111" = Option.none := by
  refine ⟨by decide, rfl, rfl⟩

/-- The failing-attempt predicate of the download loop: an attempt that
does not deliver a blob. -/
def esFalloDescarga (o : DlOutcome) : Prop :=
  o = DlOutcome.err401 ∨ o = DlOutcome.errOther

/-- The download loop never touches the cache and ends in the rethrown
error when every attempt fails. -/
theorem dwrLoop_falla (rOk : Bool) : ∀ (fuel : ℕ) (outs : List DlOutcome) (c : Option CacheEntry) (d : ℕ),
    (∀ o ∈ outs, esFalloDescarga o) →
    (dwrLoop rOk fuel outs c d).cacheFinal = c ∧ (dwrLoop rOk fuel outs c d).resultado = Option.none := by
  intro fuel
  induction fuel with
  | zero => intro outs c d _; exact ⟨rfl, rfl⟩
  | succ n ih =>
    intro outs c d h
    cases outs with
    | nil => exact ⟨rfl, rfl⟩
    | cons o resto =>
      rcases h o (List.mem_cons_self o resto) with h1 | h1 <;> subst h1
      · simp only [dwrLoop]
        by_cases hr : rOk = true
        · rw [if_pos hr]
          exact ih resto c (d + 1) fun o ho => h o (List.mem_cons_of_mem _ ho)
        · rw [if_neg hr]
          exact ⟨rfl, rfl⟩
      · exact ⟨rfl, rfl⟩

/-- C8 (confirmed).  downloadWithRetry with caching enabled: (1) a call
on an empty cache whose first attempt succeeds performs exactly one
full download and persists blob and fingerprint together; (2) a later
call whose upstream revision equals the stored fingerprint serves the
cached blob with zero downloads; (3) a differing revision forces
exactly one full re-download (first attempt succeeding), replacing the
entry; (4) a call that misses the cache check and whose every download
attempt fails leaves the existing cache entry unchanged and rethrows. -/
theorem download_cache_comportamiento :
    (∀ (srv : DbxServer) (b r : String) (resto : List DlOutcome) (mr : ℕ),
        srv.dlOutcomes = DlOutcome.ok b r :: resto →
        downloadWithRetry true false (mr + 1) Option.none srv =
          { resultado := some b, cacheFinal := some { bytes := b, rev := r }, descargas := 1 })
    ∧ (∀ (srv : DbxServer) (c : CacheEntry) (mr : ℕ),
        srv.metaRev = some c.rev →
        downloadWithRetry true false mr (some c) srv =
          { resultado := some c.bytes, cacheFinal := some c, descargas := 0 })
    ∧ (∀ (srv : DbxServer) (c : CacheEntry) (b2 r2 : String) (resto : List DlOutcome) (mr : ℕ),
        srv.metaRev = some r2 → r2 ≠ c.rev → srv.dlOutcomes = DlOutcome.ok b2 r2 :: resto →
        downloadWithRetry true false (mr + 1) (some c) srv =
          { resultado := some b2, cacheFinal := some { bytes := b2, rev := r2 }, descargas := 1 })
    ∧ (∀ (srv : DbxServer) (c : Option CacheEntry) (mr : ℕ),
        (∀ o ∈ srv.dlOutcomes, esFalloDescarga o) →
        cacheHit true false c srv = false →
        (downloadWithRetry true false mr c srv).cacheFinal = c
          ∧ (downloadWithRetry true false mr c srv).resultado = Option.none) := by
  refine ⟨?_, ?_, ?_, ?_⟩
  · intro srv b r resto mr hdl
    unfold downloadWithRetry
    rw [if_neg (by simp [cacheHit])]
    rw [hdl]
    rfl
  · intro srv c mr hmeta
    unfold downloadWithRetry
    rw [if_pos (by simp [cacheHit, hmeta])]
    rfl
  · intro srv c b2 r2 resto mr hmeta hne hdl
    unfold downloadWithRetry
    rw [if_neg (by simp [cacheHit, hmeta]; exact fun h => absurd h hne)]
    rw [hdl]
    rfl
  · intro srv c mr hfail hmiss
    unfold downloadWithRetry
    rw [if_neg (by simp [hmiss])]
    exact dwrLoop_falla srv.refreshOk mr srv.dlOutcomes c 0 hfail

/-- The upstream of the C8 witness: the metadata probe fails and the
first download attempt delivers the blob. -/
def srvEj : DbxServer :=
  { metaRev := Option.none
    dlOutcomes := [DlOutcome.ok "BLOB" "rev1"]
    refreshOk := true }

/-- Witness of the C8 behaviour: one full download on an empty cache,
blob and fingerprint persisted together. -/
theorem download_cache_comportamiento_witness :
    downloadWithRetry true false 3 Option.none srvEj =
      { resultado := some "BLOB", cacheFinal := some { bytes := "BLOB", rev := "rev1" }
        descargas := 1 } :=
  download_cache_comportamiento.1 srvEj "BLOB" "rev1" [] 2 rfl

example : toFixed2 25 = "25.00" := by decide
example : toFixed2 (1025 : ℚ) = "1025.00" := by decide
example : parseFloatO0 "1500.00" = 1500 := by decide
example : parseFloatQ "" = Option.none := by decide
example : limpiarConComa "L. 1,500.00" = "1500.00" := by decide
example : recorta "  x " = "x" := by decide
example : numACadena (1234567890123 : ℚ) = "1234567890123" := by decide
example : numACadena (3/2 : ℚ) = "1.5" := by decide

end ChatbotWhatsapp
